import Mathlib

/-!
Verification of the follow-up queueing and delivery-routing subsystem of the
openclaw gateway, as a shallow embedding of the TypeScript source.

Conventions of the embedding:
* JavaScript optional fields (`T | undefined`) become `Option T`; JS truthiness
  of an optional string (`undefined` and `""` are falsy) is `jsTruthy`.
* Stateful code is embedded by explicit state passing: the module-level queue
  store, the handoff file and the session-state file become explicit arguments
  and results.
* Clocks are explicit: `Date.now()` becomes an `Int` parameter, ISO timestamps
  a `String` parameter.
* Machine numbers (epoch milliseconds) are `Int`.
-/

namespace OpenClaw

/-! ### JS string primitives

Character-list implementations of the ECMAScript string operations used by
the source (`trim`, `slice`, `split`, `join`, `includes`, `startsWith`,
`toLowerCase`). They are written by structural recursion over `String.data`
so that concrete witnesses reduce inside the kernel. JS indexes strings by
UTF-16 units; every string these programs handle is in the Basic
Multilingual Plane, where UTF-16 units and code points coincide, so
character indexing is faithful. -/

/-- JS `s.trim()`: strip leading and trailing whitespace. -/
def jsTrim (s : String) : String :=
  String.mk
    (((s.data.dropWhile fun c => c.isWhitespace).reverse.dropWhile
        fun c => c.isWhitespace).reverse)

/-- JS `s.startsWith(pre)`. -/
def jsStartsWith (s pre : String) : Bool :=
  pre.data.isPrefixOf s.data

/-- JS `s.length` (in characters; see the BMP note above). -/
def jsCharLength (s : String) : Nat :=
  s.data.length

/-- JS `s.slice(0, n)`. -/
def jsTake (s : String) (n : Nat) : String :=
  String.mk (s.data.take n)

/-- Dropping the first `n` characters of a string. -/
def jsDrop (s : String) (n : Nat) : String :=
  String.mk (s.data.drop n)

/-- JS `s.slice(-n)`: the last `n` characters. -/
def sliceLast (s : String) (n : Nat) : String :=
  jsDrop s (jsCharLength s - n)

/-- The splitting loop of JS `s.split("\n")`. -/
def splitNlAux : List Char → List Char → List String
  | [], acc => [String.mk acc.reverse]
  | c :: cs, acc =>
    if c == '\n' then String.mk acc.reverse :: splitNlAux cs []
    else splitNlAux cs (c :: acc)

/-- JS `s.split("\n")` (empty pieces preserved, as in ECMAScript). -/
def jsSplitNl (s : String) : List String :=
  splitNlAux s.data []

/-- JS `lines.join("\n")`. -/
def jsJoinNl : List String → String
  | [] => ""
  | [l] => l
  | l :: ls => l ++ "\n" ++ jsJoinNl ls

/-- The scanning loop of JS `s.includes(pat)`. -/
def includesAux (pat : List Char) : List Char → Bool
  | [] => pat.isEmpty
  | c :: cs => pat.isPrefixOf (c :: cs) || includesAux pat cs

/-- JS `s.includes(pat)`. -/
def strIncludes (s pat : String) : Bool :=
  includesAux pat.data s.data

/-- Truthiness of a JS optional string: `undefined` and `""` are falsy. -/
def jsTruthy : Option String → Bool
  | none => false
  | some s => s ≠ ""

/-- JS `a || b` on optional strings: yields `b` when `a` is falsy. -/
def jsOrOpt (a b : Option String) : Option String :=
  if jsTruthy a then a else b

/-- JS `x?.trim()` on an optional string. -/
def optTrim (s : Option String) : Option String :=
  s.map jsTrim

/-! ## Data model (spec §3)

`FollowupRun`, `FollowupQueue`, `QueueSettings` and `QueueDedupeMode` are
declared in `auto-reply/reply/queue/types.ts`, which is not in the source
tree; the structures below are modelled from the spec's data-model section
and from how the fields are used in `enqueue.ts` and the handoff module. -/

/-- Modelled from the spec: the run-context object referenced by
`FollowupRun.run`, carrying at least `workspaceDir` and `sessionKey`
(spec §6: consumed from the dispatch layer). -/
structure RunContext where
  workspaceDir : Option String
  sessionKey : Option String
deriving Repr, DecidableEq

/-- Modelled from the spec: one pending unit of work (spec §3 `FollowupRun`).
The four originating fields are the routing quadruple; `run` is the optional
richer run context. -/
structure FollowupRun where
  prompt : String
  messageId : Option String
  summaryLine : Option String
  enqueuedAt : Int
  originatingChannel : Option String
  originatingTo : Option String
  originatingAccountId : Option String
  originatingThreadId : Option String
  run : Option RunContext
deriving Repr, DecidableEq

/-- Modelled from the spec: queue settings (spec §4.2). `maxSize = none` means
the queue is unbounded; `dropNewest` selects the drop-policy variant that
rejects the candidate instead of evicting the oldest entry (spec §4.3 step 4
allows the policy to answer "do not admit"). -/
structure QueueSettings where
  maxSize : Option Nat
  dropNewest : Bool
deriving Repr, DecidableEq

/-- Modelled from the spec: one per-key follow-up queue (spec §3
`FollowupQueue`): ordered `items`, `draining` flag, `lastEnqueuedAt`,
`lastRun` and the persisted `mode` tag, plus its drop-policy settings. -/
structure FollowupQueue where
  items : List FollowupRun
  draining : Bool
  lastEnqueuedAt : Option Int
  lastRun : Option RunContext
  mode : String
  settings : QueueSettings
deriving Repr, DecidableEq

/-- The dedupe mode union `"message-id" | "prompt" | "none"` from
`queue/types.ts` (not in the source tree; modelled from the spec §4.1). -/
inductive QueueDedupeMode where
  | messageId
  | promptText
  | noDedupe
deriving Repr, DecidableEq, BEq

/-! ## Deduplicator (`enqueue.ts`) -/

/-- `hasSameRouting` closure inside `isRunAlreadyQueued`: the candidate and an
existing item agree on all four originating routing fields. -/
def hasSameRouting (run item : FollowupRun) : Bool :=
  item.originatingChannel == run.originatingChannel &&
  item.originatingTo == run.originatingTo &&
  item.originatingAccountId == run.originatingAccountId &&
  item.originatingThreadId == run.originatingThreadId

/-- `isRunAlreadyQueued` from `enqueue.ts`: with a truthy trimmed `messageId`,
duplicate iff some existing item has the same trimmed `messageId` and the same
routing identity; otherwise only the prompt fallback (when enabled) applies. -/
def isRunAlreadyQueued (run : FollowupRun) (items : List FollowupRun)
    (allowPromptFallback : Bool) : Bool :=
  let messageId := optTrim run.messageId
  if jsTruthy messageId then
    items.any fun item => optTrim item.messageId == messageId && hasSameRouting run item
  else if !allowPromptFallback then
    false
  else
    items.any fun item => item.prompt == run.prompt && hasSameRouting run item

/-- Modelled from the spec: `shouldSkipQueueItem` lives in
`utils/queue-helpers.ts`, which is not in the source tree. Per spec §4.3
step 2 the orchestrator rejects the candidate iff the configured dedupe
callback reports it already represented; with no callback (mode `"none"`)
nothing is skipped. -/
def shouldSkipQueueItem (item : FollowupRun) (items : List FollowupRun)
    (dedupe : Option (FollowupRun → List FollowupRun → Bool)) : Bool :=
  match dedupe with
  | none => false
  | some d => d item items

/-- Modelled from the spec: `applyQueueDropPolicy` lives in
`utils/queue-helpers.ts`, which is not in the source tree. Spec §4.2:
bounded-size FIFO eviction — under capacity the item is admitted unchanged;
at capacity either the oldest entry is dropped (its one-line summary surfaced
via `summarize`) and the item admitted, or — in the `dropNewest` variant —
the candidate itself is rejected (spec §4.3 step 4). Returns the admit
decision, the possibly-evicted queue and the summaries of dropped entries. -/
def applyQueueDropPolicy (queue : FollowupQueue)
    (summarize : FollowupRun → String) : Bool × FollowupQueue × List String :=
  match queue.settings.maxSize with
  | none => (true, queue, [])
  | some cap =>
    if queue.items.length < cap then (true, queue, [])
    else if queue.settings.dropNewest then (false, queue, [])
    else
      match queue.items with
      | [] => (true, queue, [])
      | oldest :: rest => (true, { queue with items := rest }, [summarize oldest])

/-- The summarize callback passed by `enqueueFollowupRun`:
`item.summaryLine?.trim() || item.prompt.trim()`. -/
def summarizeItem (item : FollowupRun) : String :=
  match item.summaryLine with
  | some s => if jsTrim s ≠ "" then jsTrim s else jsTrim item.prompt
  | none => jsTrim item.prompt

/-- The `dedupe` callback built by `enqueueFollowupRun` from the dedupe mode:
`undefined` for mode `"none"`, otherwise `isRunAlreadyQueued` with the prompt
fallback enabled exactly for mode `"prompt"`. -/
def dedupeFor (dedupeMode : QueueDedupeMode) :
    Option (FollowupRun → List FollowupRun → Bool) :=
  if dedupeMode == QueueDedupeMode.noDedupe then none
  else some fun item items =>
    isRunAlreadyQueued item items (dedupeMode == QueueDedupeMode.promptText)

/-- A pending append to a workspace inbox file (the side effect of the
draining branch of `enqueueFollowupRun`). -/
structure InboxWrite where
  file : String
  entry : String
deriving Repr, DecidableEq

/-- Result of one `enqueueFollowupRun` call: the boolean return value, the
queue state after the call, and the inbox side-write it issued (if any). -/
structure EnqueueResult where
  admitted : Bool
  queue : FollowupQueue
  inboxWrite : Option InboxWrite
deriving Repr, DecidableEq

/-- `enqueueFollowupRun` from `enqueue.ts`, with the queue resolved by
`getFollowupQueue` passed explicitly (state passing) and the clock explicit
(`now` for `Date.now()`, `nowIso` for `new Date().toISOString()`).
Mirrors the source order: dedupe gate; unconditional `lastEnqueuedAt` /
`lastRun` update; drop policy; push; draining inbox side-write, whose
workspace directory is `run.run?.workspaceDir || queue.lastRun?.workspaceDir`
evaluated after the `lastRun` update. -/
def enqueueFollowupRun (queue : FollowupQueue) (run : FollowupRun)
    (dedupeMode : QueueDedupeMode) (now : Int) (nowIso : String) : EnqueueResult :=
  let dedupe := dedupeFor dedupeMode
  if shouldSkipQueueItem run queue.items dedupe then
    { admitted := false, queue := queue, inboxWrite := none }
  else
    let queue1 := { queue with lastEnqueuedAt := some now, lastRun := run.run }
    let dropped := applyQueueDropPolicy queue1 summarizeItem
    if !dropped.1 then
      { admitted := false, queue := dropped.2.1, inboxWrite := none }
    else
      let queue2 := dropped.2.1
      let queue3 := { queue2 with items := queue2.items ++ [run] }
      let write :=
        if queue3.draining then
          let workspaceDir :=
            jsOrOpt (run.run.bind RunContext.workspaceDir)
              (queue3.lastRun.bind RunContext.workspaceDir)
          if jsTruthy workspaceDir then
            some { file := workspaceDir.getD "" ++ "/OPENCLAW_INBOX.md",
                   entry := "\n---\n[" ++ nowIso ++ "]\n" ++ jsTrim run.prompt ++ "\n" }
          else none
        else none
      { admitted := true, queue := queue3, inboxWrite := write }

/-! ## Restart handoff (`restart-handoff.ts`) -/

/-- Serializable projection of `FollowupRun` (`HandoffItem` in the source). -/
structure HandoffItem where
  prompt : String
  messageId : Option String
  summaryLine : Option String
  enqueuedAt : Int
  originatingChannel : Option String
  originatingTo : Option String
  originatingAccountId : Option String
  originatingThreadId : Option String
  sessionKey : Option String
deriving Repr, DecidableEq

/-- One persisted queue (`HandoffQueue` in the source). -/
structure HandoffQueue where
  key : String
  mode : String
  items : List HandoffItem
deriving Repr, DecidableEq

/-- Top-level handoff snapshot (`HandoffData` in the source); `version` is
always written as `1`. -/
structure HandoffData where
  savedAt : Int
  version : Nat
  queues : List HandoffQueue
deriving Repr, DecidableEq

/-- `HANDOFF_MAX_AGE_MS = 5 * 60 * 1_000` from the source. -/
def HANDOFF_MAX_AGE_MS : Int := 5 * 60 * 1000

/-- The item projection inside `saveRestartHandoff`: keeps the serialisable
fields and takes `sessionKey` from `item.run?.sessionKey`. -/
def toHandoffItem (item : FollowupRun) : HandoffItem :=
  { prompt := item.prompt
    messageId := item.messageId
    summaryLine := item.summaryLine
    enqueuedAt := item.enqueuedAt
    originatingChannel := item.originatingChannel
    originatingTo := item.originatingTo
    originatingAccountId := item.originatingAccountId
    originatingThreadId := item.originatingThreadId
    sessionKey := item.run.bind RunContext.sessionKey }

/-- The queue loop of `saveRestartHandoff`: iterate `FOLLOWUP_QUEUES` in
order; `continue` on queues with zero items; keep only items with a truthy
`originatingTo`; `continue` when nothing survives the filter; otherwise push
`{key, mode, items}`. -/
def buildHandoffQueues : List (String × FollowupQueue) → List HandoffQueue
  | [] => []
  | (key, queue) :: rest =>
    if queue.items.length == 0 then
      buildHandoffQueues rest
    else
      let serializableItems :=
        (queue.items.filter fun item => jsTruthy item.originatingTo).map toHandoffItem
      if serializableItems.length == 0 then
        buildHandoffQueues rest
      else
        { key := key, mode := queue.mode, items := serializableItems } ::
          buildHandoffQueues rest

/-- `saveRestartHandoff` from the source, with the module-level
`FOLLOWUP_QUEUES` map passed as an explicit association list (iteration
order = insertion order, as for a JS `Map`) and `Date.now()` explicit.
Returns the `HandoffData` written to the handoff file, or `none` when the
function returns without writing (no queue contributed any item). -/
def saveRestartHandoff (queues : List (String × FollowupQueue)) (now : Int) :
    Option HandoffData :=
  let built := buildHandoffQueues queues
  if built.length == 0 then none
  else some { savedAt := now, version := 1, queues := built }

/-- The parse outcome of the handoff file's raw bytes. `JSON.parse` is
external library code, so the file content is embedded as its parse result:
`none` stands for malformed bytes (parse throws), `some d` for bytes that
parse to `d`. -/
abbrev HandoffFileContent := Option HandoffData

/-- `loadAndClearRestartHandoff` from the source, with the filesystem state
at the handoff path explicit: the argument is `none` when the file does not
exist, `some raw` when it holds content `raw`. Mirrors the source order:
existence check, read, delete the file immediately (before parsing), then
parse, then the staleness guard. Returns the function's result paired with
the filesystem state after the call. -/
def loadAndClearRestartHandoff (fs : Option HandoffFileContent) (now : Int) :
    Option HandoffData × Option HandoffFileContent :=
  match fs with
  | none => (none, none)
  | some raw =>
    -- the file is unlinked here, before `JSON.parse` runs
    let fsAfter : Option HandoffFileContent := none
    match raw with
    | none => (none, fsAfter)
    | some data =>
      if now - data.savedAt > HANDOFF_MAX_AGE_MS then (none, fsAfter)
      else (some data, fsAfter)

/-! ## Tmux output extraction (`tmux-runner.ts`) -/

/-- JS `Array.prototype.indexOf` on string lists: index of the first
occurrence (only ever used on elements of the list, where it agrees with the
JS result). -/
def listIndexOf : List String → String → Nat
  | [], _ => 0
  | y :: ys, x => if y == x then 0 else listIndexOf ys x + 1

/-- The divergence scan of `extractNewContent`: the first index below
`min` of the two lengths where the line lists differ, defaulting to
`beforeLines.length` when no such index exists. -/
def divergeIdx : List String → List String → Nat
  | b :: bs, a :: as => if b == a then divergeIdx bs as + 1 else 0
  | bs, _ => bs.length

/-- The decorative separator pattern filtered by `extractNewContent`
(fourteen U+2500 box-drawing characters). -/
def SEPARATOR_LINE : String := "──────────────"

/-- The no-response placeholder literal returned by `extractNewContent`. -/
def NO_RESPONSE_PLACEHOLDER : String := "(нет ответа)"

/-- `extractNewContent` from `tmux-runner.ts`: split both captures on
newlines, drop everything before the divergence index, filter with the
source predicate — a line survives when it is neither a prompt-glyph line,
nor contains the bypass banner or the separator pattern, nor is blank, OR
when its first occurrence sits strictly inside `(0, length - 3)` — join,
trim, and fall back to the placeholder when empty. -/
def extractNewContent (before after : String) : String :=
  let beforeLines := jsSplitNl before
  let afterLines := jsSplitNl after
  let dIdx := divergeIdx beforeLines afterLines
  let newLines := afterLines.drop dIdx
  let filtered :=
    (newLines.filter fun l =>
      ((!(jsStartsWith (jsTrim l) "❯")) && (!(strIncludes l "⏵⏵ bypass permissions")) &&
        (!(strIncludes l SEPARATOR_LINE)) && (!(jsTrim l == ""))) ||
      (decide (0 < listIndexOf newLines l) &&
        decide (listIndexOf newLines l < newLines.length - 3)))
  let joined := jsTrim (jsJoinNl filtered)
  if joined == "" then NO_RESPONSE_PLACEHOLDER else joined

/-- Result shape of `sendToTmux` (`TmuxRunResult` in the source). -/
structure TmuxRunResult where
  success : Bool
  output : String
  error : Option String
deriving Repr, DecidableEq

/-- Result shape of `runWithResume` (`ResumeRunResult` in the source). -/
structure ResumeRunResult where
  success : Bool
  output : String
  error : Option String
deriving Repr, DecidableEq

/-! ## Interactive session router (`session-state.ts`, `session-proxy.ts`) -/

/-- `SessionMode = "tmux" | "resume"`. -/
inductive SessionMode where
  | tmux
  | resume
deriving Repr, DecidableEq, BEq

/-- `SessionEntry` from `session-state.ts`: one active proxy binding. -/
structure SessionEntry where
  mode : SessionMode
  tmuxSession : Option String
  resumeId : Option String
  cwd : Option String
  label : Option String
  switchedAt : String
deriving Repr, DecidableEq

/-- The session-state store (`session-state.json` content), embedded as an
association list from chat id to entry; JS object keys are unique, so at
most one binding per chat id is assumed. -/
abbrev SessionStore := List (String × SessionEntry)

/-- `getSession`: `store[chatId] ?? null`. -/
def getSession (store : SessionStore) (chatId : String) : Option SessionEntry :=
  store.lookup chatId

/-- `clearSession`: returns `false` leaving the store alone when no entry
exists, otherwise deletes the binding and returns `true`, paired with the
store that `saveState` persists. -/
def clearSession (store : SessionStore) (chatId : String) : Bool × SessionStore :=
  match store.lookup chatId with
  | none => (false, store)
  | some _ => (true, store.filter fun kv => kv.1 != chatId)

/-- JS `String.prototype.toLowerCase` restricted to the alphabets occurring
in the router's command vocabulary: ASCII letters and Cyrillic (А–Я and Ё). -/
def jsLowerChar (c : Char) : Char :=
  if 65 ≤ c.toNat && c.toNat ≤ 90 then Char.ofNat (c.toNat + 32)
  else if 0x410 ≤ c.toNat && c.toNat ≤ 0x42F then Char.ofNat (c.toNat + 0x20)
  else if c.toNat == 0x401 then Char.ofNat 0x451
  else c

/-- JS `text.toLowerCase()` (see `jsLowerChar`). -/
def jsToLower (s : String) : String :=
  String.mk (s.data.map jsLowerChar)

/-- `BACK_COMMANDS` from `session-proxy.ts`. -/
def BACK_COMMANDS : List String :=
  ["назад", "back", "вернись", "выйти", "выйди", "отключить", "detach",
   "exit session", "выход из сессии", "вернуться"]

/-- `SCREEN_COMMANDS` from `session-proxy.ts`. -/
def SCREEN_COMMANDS : List String :=
  ["экран", "screen", "что там", "покажи экран", "capture", "статус"]

/-- `isBackCommand`: membership of `text.toLowerCase().trim()` in
`BACK_COMMANDS`. -/
def isBackCommand (text : String) : Bool :=
  BACK_COMMANDS.contains (jsTrim (jsToLower text))

/-- `isScreenCommand`: membership of `text.toLowerCase().trim()` in
`SCREEN_COMMANDS`. -/
def isScreenCommand (text : String) : Bool :=
  SCREEN_COMMANDS.contains (jsTrim (jsToLower text))

/-- `formatLabel` from `session-proxy.ts`. -/
def formatLabel (label : Option String) (sessionId : String) : String :=
  let displayLabel := label.getD (jsTake sessionId 8)
  let truncated :=
    if jsCharLength displayLabel > 40 then jsTake displayLabel 40 ++ "…" else displayLabel
  "[Сессия: " ++ truncated ++ "]"

/-- `ProxyResult` from `session-proxy.ts`. -/
structure ProxyResult where
  handled : Bool
  response : Option String
deriving Repr, DecidableEq

/-- The external collaborators called by `tryProxyMessage` (tmux process
control and the resume driver), passed as an explicit environment. -/
structure ProxyEnv where
  checkTmuxSession : String → Bool
  captureTmuxScreen : String → String
  sendToTmux : String → String → TmuxRunResult
  runWithResume : String → String → String → ResumeRunResult

/-- `tryProxyMessage` from `session-proxy.ts`, with the session-state file
threaded explicitly (the result is paired with the store state after the
call). Mirrors the source: no entry → not handled; back-command → clear and
confirm; attached tmux with a truthy session name → liveness check /
screen command / send; attached resume with truthy `resumeId` and `cwd` →
resume driver; anything else falls through unhandled. -/
def tryProxyMessage (env : ProxyEnv) (store : SessionStore) (chatId : String)
    (messageText : String) : ProxyResult × SessionStore :=
  match getSession store chatId with
  | none => ({ handled := false, response := none }, store)
  | some session =>
    if isBackCommand messageText then
      let cleared := clearSession store chatId
      let modeStr :=
        if session.mode == SessionMode.tmux then
          "tmux:" ++ (match session.tmuxSession with | some s => s | none => "undefined")
        else
          "resume:" ++ (match session.resumeId with | some r => jsTake r 8 | none => "undefined")
      ({ handled := true,
         response := some ("Вернулся в основную сессию.\n_(была подключена: " ++ modeStr ++ ")_") },
        cleared.2)
    else if session.mode == SessionMode.tmux && jsTruthy session.tmuxSession then
      let tmuxName := session.tmuxSession.getD ""
      let label := formatLabel session.label tmuxName
      if !(env.checkTmuxSession tmuxName) then
        let cleared := clearSession store chatId
        ({ handled := true,
           response := some ("tmux сессия \x27" ++ tmuxName ++
             "\x27 не найдена — возможно была закрыта.\nВернулся в обычный режим.") },
          cleared.2)
      else if isScreenCommand messageText then
        let screen := env.captureTmuxScreen tmuxName
        let trimmed := sliceLast (jsTrim screen) 3000
        ({ handled := true,
           response := some (label ++ " — текущий экран:\n```\n" ++ trimmed ++ "\n```") },
          store)
      else
        let result := env.sendToTmux tmuxName messageText
        if !result.success then
          ({ handled := true,
             response := some (label ++ "\n\nОшибка tmux: " ++ (result.error.getD "undefined")) },
            store)
        else
          ({ handled := true,
             response := some (label ++ "\n\n" ++ jsTake result.output 4000) },
            store)
    else if session.mode == SessionMode.resume && jsTruthy session.resumeId &&
        jsTruthy session.cwd then
      let resumeId := session.resumeId.getD ""
      let label := formatLabel session.label resumeId
      let result := env.runWithResume resumeId (session.cwd.getD "") messageText
      if !result.success then
        ({ handled := true,
           response := some (label ++ "\n\nОшибка resume: " ++ (result.error.getD "undefined")) },
          store)
      else
        ({ handled := true,
           response := some (label ++ "\n\n" ++ jsTake result.output 4000) },
          store)
    else
      ({ handled := false, response := none }, store)

/-! ## Spec-side characterisation of the handoff snapshot (for claim C5) -/

/-- The contribution of one stored queue to the handoff snapshot, stated from
the spec's words (for comparison with the source-translated
`saveRestartHandoff`): the queue contributes, in order, the projections of
its items that carry a non-empty `originatingTo`, and is omitted entirely
when nothing survives that filter. -/
def handoffContribution (kq : String × FollowupQueue) : Option HandoffQueue :=
  let kept := kq.2.items.filter fun item => jsTruthy item.originatingTo
  if kept.isEmpty then none
  else some { key := kq.1, mode := kq.2.mode, items := kept.map toHandoffItem }

/-- The handoff snapshot stated from the spec's words: collect every queue's
contribution in store order; when no queue contributes any item, nothing is
written at all. -/
def saveRestartHandoffSpec (queues : List (String × FollowupQueue)) (now : Int) :
    Option HandoffData :=
  let qs := queues.filterMap handoffContribution
  if qs.isEmpty then none else some { savedAt := now, version := 1, queues := qs }

/-! ### Concrete fixtures used by witnesses -/

/-- A run context with a workspace directory (fixture). -/
def sampleCtx : RunContext := { workspaceDir := some "/ws", sessionKey := some "sk" }

/-- Unbounded queue settings (fixture). -/
def unboundedSettings : QueueSettings := { maxSize := none, dropNewest := false }

/-- Settings whose drop policy rejects every candidate: capacity zero in the
reject-the-newest variant (fixture). -/
def rejectAllSettings : QueueSettings := { maxSize := some 0, dropNewest := true }

/-- A follow-up run with routing quadruple (tg, 100, a, –) and message id
`" m1 "` (fixture). -/
def sampleRun1 : FollowupRun :=
  { prompt := "p1", messageId := some " m1 ", summaryLine := none, enqueuedAt := 1,
    originatingChannel := some "tg", originatingTo := some "100",
    originatingAccountId := some "a", originatingThreadId := none, run := some sampleCtx }

/-- Same routing quadruple and same trimmed message id as `sampleRun1`
(fixture). -/
def sampleRun2 : FollowupRun :=
  { sampleRun1 with prompt := "p2", messageId := some "m1", enqueuedAt := 2 }

/-- Same message id as `sampleRun1` but a different `originatingTo`
(fixture). -/
def sampleRun3 : FollowupRun :=
  { sampleRun2 with originatingTo := some "200" }

/-- A run with a fresh message id and no run context (fixture). -/
def sparseRun : FollowupRun :=
  { sampleRun1 with prompt := "hi", messageId := some "m9", run := none }

/-- An empty, unbounded, non-draining queue (fixture). -/
def emptyQueue : FollowupQueue :=
  { items := [], draining := false, lastEnqueuedAt := none, lastRun := none,
    mode := "collect", settings := unboundedSettings }

/-- `emptyQueue` already holding `sampleRun1` (fixture). -/
def queueWithRun1 : FollowupQueue := { emptyQueue with items := [sampleRun1] }

/-- An empty queue whose drop policy rejects every candidate (fixture). -/
def rejectingQueue : FollowupQueue := { emptyQueue with settings := rejectAllSettings }

/-- An empty unbounded queue in the draining state (fixture). -/
def drainingQueue : FollowupQueue := { emptyQueue with draining := true }

/-- A proxy environment whose external collaborators all fail or return
nothing (fixture; claims C8 and C10 never reach them). -/
def idleEnv : ProxyEnv :=
  { checkTmuxSession := fun _ => false, captureTmuxScreen := fun _ => "",
    sendToTmux := fun _ _ => { success := false, output := "", error := none },
    runWithResume := fun _ _ _ => { success := false, output := "", error := none } }

/-- An attached tmux session entry (fixture). -/
def tmuxEntry : SessionEntry :=
  { mode := SessionMode.tmux, tmuxSession := some "dev", resumeId := none,
    cwd := none, label := some "L", switchedAt := "2026-01-01" }

/-- A tmux-mode entry whose `tmuxSession` field is missing (fixture). -/
def sparseTmuxEntry : SessionEntry := { tmuxEntry with tmuxSession := none }

/-- A resume-mode entry lacking `resumeId` (fixture). -/
def sparseResumeEntry : SessionEntry :=
  { mode := SessionMode.resume, tmuxSession := none, resumeId := none,
    cwd := some "/proj", label := none, switchedAt := "2026-01-01" }

theorem buildHandoffQueues_eq_filterMap (queues : List (String × FollowupQueue)) :
    buildHandoffQueues queues = queues.filterMap handoffContribution := by
  induction queues with
  | nil => rfl
  | cons kq rest ih =>
    obtain ⟨key, queue⟩ := kq
    by_cases hempty : queue.items = []
    · simp [buildHandoffQueues, handoffContribution, hempty, ih]
    · have hlen : (queue.items.length == 0) = false := by
        simp [List.length_eq_zero, hempty]
      by_cases hkept : queue.items.filter (fun item => jsTruthy item.originatingTo) = []
      · simp [buildHandoffQueues, handoffContribution, hlen, hkept, ih]
      · simp [buildHandoffQueues, handoffContribution, hlen, hkept, ih,
          List.isEmpty_iff, List.length_eq_zero]

/-- Claim C5: `saveRestartHandoff` persists exactly the items whose
`originatingTo` is non-empty — each queue contributes, in order, the
projections of its items carrying `originatingTo`; queues with zero items or
whose items all lack `originatingTo` are omitted; and when no queue
contributes, no handoff file is written at all. -/
theorem saveRestartHandoff_persists_exactly_deliverable
    (queues : List (String × FollowupQueue)) (now : Int) :
    saveRestartHandoff queues now = saveRestartHandoffSpec queues now := by
  unfold saveRestartHandoff saveRestartHandoffSpec
  rw [buildHandoffQueues_eq_filterMap]
  rcases h : queues.filterMap handoffContribution with _ | ⟨q, qs⟩ <;> simp

/-- Claim C3: whenever the restart-handoff file exists,
`loadAndClearRestartHandoff` deletes it before parsing, so the filesystem
state after the call holds no file and an immediately following second call
returns `null` — regardless of whether the first call produced valid data,
`null` from a parse failure, or `null` from staleness. -/
theorem loadAndClearRestartHandoff_consumes_file
    (content : HandoffFileContent) (t1 t2 : Int) :
    (loadAndClearRestartHandoff (some content) t1).2 = none ∧
    (loadAndClearRestartHandoff
      (loadAndClearRestartHandoff (some content) t1).2 t2).1 = none := by
  rcases content with _ | data
  · exact ⟨rfl, rfl⟩
  · constructor
    · by_cases hstale : t1 - data.savedAt > HANDOFF_MAX_AGE_MS <;>
        simp [loadAndClearRestartHandoff, hstale]
    · have h2 : (loadAndClearRestartHandoff (some (some data)) t1).2 = none := by
        by_cases hstale : t1 - data.savedAt > HANDOFF_MAX_AGE_MS <;>
          simp [loadAndClearRestartHandoff, hstale]
      rw [h2]
      rfl

/-- Claim C4: a stored snapshot whose `savedAt` lies more than 5 minutes
(300000 ms) before the current time is rejected: `loadAndClearRestartHandoff`
returns `null` even though the content parses successfully as `HandoffData`. -/
theorem loadAndClearRestartHandoff_rejects_stale
    (data : HandoffData) (now : Int)
    (hstale : now - data.savedAt > HANDOFF_MAX_AGE_MS) :
    HANDOFF_MAX_AGE_MS = 300000 ∧
    (loadAndClearRestartHandoff (some (some data)) now).1 = none := by
  refine ⟨by norm_num [HANDOFF_MAX_AGE_MS], ?_⟩
  simp [loadAndClearRestartHandoff, hstale]

/-- Witness for C4: the spec's own example — a snapshot saved 10 minutes
(600000 ms) before now is rejected. -/
theorem loadAndClearRestartHandoff_rejects_stale_witness :
    (600000 : Int) - (0 : Int) > HANDOFF_MAX_AGE_MS ∧
    (loadAndClearRestartHandoff
      (some (some { savedAt := 0, version := 1, queues := [] })) 600000).1 = none :=
  ⟨by norm_num [HANDOFF_MAX_AGE_MS],
    (loadAndClearRestartHandoff_rejects_stale
      { savedAt := 0, version := 1, queues := [] } 600000
      (by norm_num [HANDOFF_MAX_AGE_MS])).2⟩

/-! ## Enqueue claims -/

theorem applyQueueDropPolicy_frame (queue : FollowupQueue)
    (summarize : FollowupRun → String) :
    (applyQueueDropPolicy queue summarize).2.1.lastEnqueuedAt = queue.lastEnqueuedAt ∧
    (applyQueueDropPolicy queue summarize).2.1.lastRun = queue.lastRun ∧
    (applyQueueDropPolicy queue summarize).2.1.draining = queue.draining ∧
    (applyQueueDropPolicy queue summarize).2.1.settings = queue.settings := by
  unfold applyQueueDropPolicy
  split
  · exact ⟨rfl, rfl, rfl, rfl⟩
  · split
    · exact ⟨rfl, rfl, rfl, rfl⟩
    · split
      · exact ⟨rfl, rfl, rfl, rfl⟩
      · split
        · exact ⟨rfl, rfl, rfl, rfl⟩
        · exact ⟨rfl, rfl, rfl, rfl⟩

/-- Claim C1: two `FollowupRun` values agreeing on all four originating
routing fields with the same non-empty trimmed `messageId`: once the first
is in the queue's items, `enqueueFollowupRun` on the second under dedupe
mode `"message-id"` returns `false` and leaves the items sequence
unchanged. -/
theorem enqueueFollowupRun_messageId_dedup_rejects
    (queue : FollowupQueue) (r1 r2 : FollowupRun) (now : Int) (nowIso : String)
    (hmem : r1 ∈ queue.items)
    (hch : r1.originatingChannel = r2.originatingChannel)
    (hto : r1.originatingTo = r2.originatingTo)
    (hacc : r1.originatingAccountId = r2.originatingAccountId)
    (hth : r1.originatingThreadId = r2.originatingThreadId)
    (hmsg : optTrim r1.messageId = optTrim r2.messageId)
    (htruthy : jsTruthy (optTrim r2.messageId) = true) :
    (enqueueFollowupRun queue r2 QueueDedupeMode.messageId now nowIso).admitted = false ∧
    (enqueueFollowupRun queue r2 QueueDedupeMode.messageId now nowIso).queue.items =
      queue.items := by
  have hskip : shouldSkipQueueItem r2 queue.items
      (dedupeFor QueueDedupeMode.messageId) = true := by
    show isRunAlreadyQueued r2 queue.items
        (QueueDedupeMode.messageId == QueueDedupeMode.promptText) = true
    simp only [isRunAlreadyQueued, htruthy, if_true, List.any_eq_true]
    exact ⟨r1, hmem, by simp [hasSameRouting, hmsg, hch, hto, hacc, hth]⟩
  simp [enqueueFollowupRun, hskip]

/-- Witness for C1: a concrete queue already holding the run, and a second
routing-identical run with the same trimmed message id, is rejected. -/
theorem enqueueFollowupRun_messageId_dedup_rejects_witness :
    (enqueueFollowupRun
      { items := [{ prompt := "p1", messageId := some " m1 ", summaryLine := none,
                    enqueuedAt := 1, originatingChannel := some "tg",
                    originatingTo := some "100", originatingAccountId := some "a",
                    originatingThreadId := none, run := none }],
        draining := false, lastEnqueuedAt := none, lastRun := none,
        mode := "collect", settings := { maxSize := none, dropNewest := false } }
      { prompt := "p2", messageId := some "m1", summaryLine := none,
        enqueuedAt := 2, originatingChannel := some "tg",
        originatingTo := some "100", originatingAccountId := some "a",
        originatingThreadId := none, run := none }
      QueueDedupeMode.messageId 6 "T").admitted = false :=
  (enqueueFollowupRun_messageId_dedup_rejects
    { items := [{ prompt := "p1", messageId := some " m1 ", summaryLine := none,
                  enqueuedAt := 1, originatingChannel := some "tg",
                  originatingTo := some "100", originatingAccountId := some "a",
                  originatingThreadId := none, run := none }],
      draining := false, lastEnqueuedAt := none, lastRun := none,
      mode := "collect", settings := { maxSize := none, dropNewest := false } }
    { prompt := "p1", messageId := some " m1 ", summaryLine := none,
      enqueuedAt := 1, originatingChannel := some "tg",
      originatingTo := some "100", originatingAccountId := some "a",
      originatingThreadId := none, run := none }
    { prompt := "p2", messageId := some "m1", summaryLine := none,
      enqueuedAt := 2, originatingChannel := some "tg",
      originatingTo := some "100", originatingAccountId := some "a",
      originatingThreadId := none, run := none }
    6 "T" (by decide) rfl rfl rfl rfl (by decide) (by decide)).1

theorem enqueueFollowupRun_unbounded (queue : FollowupQueue) (r : FollowupRun)
    (m : QueueDedupeMode) (now : Int) (iso : String)
    (hskip : shouldSkipQueueItem r queue.items (dedupeFor m) = false)
    (hcap : queue.settings.maxSize = none) :
    (enqueueFollowupRun queue r m now iso).admitted = true ∧
    (enqueueFollowupRun queue r m now iso).queue.items = queue.items ++ [r] ∧
    (enqueueFollowupRun queue r m now iso).queue.settings = queue.settings := by
  simp [enqueueFollowupRun, applyQueueDropPolicy, hskip, hcap]

/-- Claim C2: two runs with equal non-empty trimmed `messageId` but different
`originatingTo` are both admitted into the same (fresh, unbounded) queue
under dedupe mode `"message-id"`: the second call is not rejected as a
duplicate, since deduplication requires the full four-field routing
identity. -/
theorem enqueueFollowupRun_routing_isolation
    (queue : FollowupQueue) (r1 r2 : FollowupRun) (n1 n2 : Int) (iso1 iso2 : String)
    (hitems : queue.items = [])
    (hcap : queue.settings.maxSize = none)
    (hmsg : optTrim r1.messageId = optTrim r2.messageId)
    (htruthy : jsTruthy (optTrim r2.messageId) = true)
    (hto : r1.originatingTo ≠ r2.originatingTo) :
    (enqueueFollowupRun queue r1 QueueDedupeMode.messageId n1 iso1).admitted = true ∧
    (enqueueFollowupRun
      (enqueueFollowupRun queue r1 QueueDedupeMode.messageId n1 iso1).queue
      r2 QueueDedupeMode.messageId n2 iso2).admitted = true ∧
    (enqueueFollowupRun
      (enqueueFollowupRun queue r1 QueueDedupeMode.messageId n1 iso1).queue
      r2 QueueDedupeMode.messageId n2 iso2).queue.items = [r1, r2] := by
  have hskip1 : shouldSkipQueueItem r1 queue.items
      (dedupeFor QueueDedupeMode.messageId) = false := by
    rw [hitems]
    show isRunAlreadyQueued r1 []
        (QueueDedupeMode.messageId == QueueDedupeMode.promptText) = false
    simp [isRunAlreadyQueued]
  obtain ⟨ha1, hi1, hs1⟩ :=
    enqueueFollowupRun_unbounded queue r1 QueueDedupeMode.messageId n1 iso1 hskip1 hcap
  have hto' : (r1.originatingTo == r2.originatingTo) = false :=
    beq_eq_false_iff_ne.mpr hto
  have hskip2 : shouldSkipQueueItem r2
      (enqueueFollowupRun queue r1 QueueDedupeMode.messageId n1 iso1).queue.items
      (dedupeFor QueueDedupeMode.messageId) = false := by
    rw [hi1, hitems, List.nil_append]
    show isRunAlreadyQueued r2 [r1]
        (QueueDedupeMode.messageId == QueueDedupeMode.promptText) = false
    simp [isRunAlreadyQueued, htruthy, hasSameRouting, hto']
  obtain ⟨ha2, hi2, -⟩ :=
    enqueueFollowupRun_unbounded _ r2 QueueDedupeMode.messageId n2 iso2 hskip2
      (by rw [hs1]; exact hcap)
  refine ⟨ha1, ha2, ?_⟩
  rw [hi2, hi1, hitems]
  rfl

/-- Witness for C2: `sampleRun1` and `sampleRun3` share the trimmed message
id `"m1"` but differ in `originatingTo`; both are admitted. -/
theorem enqueueFollowupRun_routing_isolation_witness :
    (enqueueFollowupRun emptyQueue sampleRun1 QueueDedupeMode.messageId 5 "A").admitted = true ∧
    (enqueueFollowupRun
      (enqueueFollowupRun emptyQueue sampleRun1 QueueDedupeMode.messageId 5 "A").queue
      sampleRun3 QueueDedupeMode.messageId 6 "B").admitted = true ∧
    (enqueueFollowupRun
      (enqueueFollowupRun emptyQueue sampleRun1 QueueDedupeMode.messageId 5 "A").queue
      sampleRun3 QueueDedupeMode.messageId 6 "B").queue.items = [sampleRun1, sampleRun3] :=
  enqueueFollowupRun_routing_isolation emptyQueue sampleRun1 sampleRun3 5 6 "A" "B"
    rfl rfl (by decide) (by decide) (by decide)

/-- Claim C6: once a candidate passes deduplication, `enqueueFollowupRun`
sets `lastEnqueuedAt` to the current time and `lastRun` to the run's context
even when the drop policy then rejects the item; when the candidate is
rejected by deduplication instead, the call returns `false` and leaves both
fields unchanged. -/
theorem enqueueFollowupRun_records_attempt
    (queue : FollowupQueue) (r : FollowupRun) (m : QueueDedupeMode)
    (now : Int) (iso : String) :
    (shouldSkipQueueItem r queue.items (dedupeFor m) = false →
      (enqueueFollowupRun queue r m now iso).queue.lastEnqueuedAt = some now ∧
      (enqueueFollowupRun queue r m now iso).queue.lastRun = r.run) ∧
    (shouldSkipQueueItem r queue.items (dedupeFor m) = true →
      (enqueueFollowupRun queue r m now iso).admitted = false ∧
      (enqueueFollowupRun queue r m now iso).queue.lastEnqueuedAt = queue.lastEnqueuedAt ∧
      (enqueueFollowupRun queue r m now iso).queue.lastRun = queue.lastRun) := by
  constructor
  · intro hskip
    unfold enqueueFollowupRun
    simp only [hskip, Bool.false_eq_true, if_false]
    obtain ⟨hA, hB, -, -⟩ :=
      applyQueueDropPolicy_frame
        { queue with lastEnqueuedAt := some now, lastRun := r.run } summarizeItem
    split
    · exact ⟨hA, hB⟩
    · exact ⟨hA, hB⟩
  · intro hskip
    simp [enqueueFollowupRun, hskip]

/-- Witness for C6: on `rejectingQueue` the drop policy rejects
`sampleRun1`, yet the freshness fields are updated; on `queueWithRun1` the
duplicate `sampleRun2` is rejected by dedup and the fields stay untouched. -/
theorem enqueueFollowupRun_records_attempt_witness :
    ((enqueueFollowupRun rejectingQueue sampleRun1
        QueueDedupeMode.messageId 5 "T").admitted = false ∧
      (enqueueFollowupRun rejectingQueue sampleRun1
        QueueDedupeMode.messageId 5 "T").queue.lastEnqueuedAt = some 5 ∧
      (enqueueFollowupRun rejectingQueue sampleRun1
        QueueDedupeMode.messageId 5 "T").queue.lastRun = sampleRun1.run) ∧
    ((enqueueFollowupRun queueWithRun1 sampleRun2
        QueueDedupeMode.messageId 6 "T").admitted = false ∧
      (enqueueFollowupRun queueWithRun1 sampleRun2
        QueueDedupeMode.messageId 6 "T").queue.lastEnqueuedAt = none) :=
  ⟨⟨by decide,
    ((enqueueFollowupRun_records_attempt rejectingQueue sampleRun1
        QueueDedupeMode.messageId 5 "T").1 (by decide)).1,
    ((enqueueFollowupRun_records_attempt rejectingQueue sampleRun1
        QueueDedupeMode.messageId 5 "T").1 (by decide)).2⟩,
   ⟨((enqueueFollowupRun_records_attempt queueWithRun1 sampleRun2
        QueueDedupeMode.messageId 6 "T").2 (by decide)).1,
    ((enqueueFollowupRun_records_attempt queueWithRun1 sampleRun2
        QueueDedupeMode.messageId 6 "T").2 (by decide)).2.1⟩⟩

/-- Claim C7 (code bug in the source): the inbox side-write's fallback to
the queue's prior `lastRun` workspace is dead code, because
`queue.lastRun = run.run` is assigned before the fallback reads
`queue.lastRun?.workspaceDir`. Concretely: after an enqueue records a
`lastRun` whose context carries workspace `"/ws"`, admitting `sparseRun`
(whose own context is absent) into the draining queue issues NO inbox write
at all — the claim (and the source's own comment) say the entry should be
appended to the prior workspace's `OPENCLAW_INBOX.md`. -/
theorem enqueueFollowupRun_inbox_fallback_dead :
    (enqueueFollowupRun drainingQueue sampleRun1
      QueueDedupeMode.messageId 5 "T1").queue.lastRun = some sampleCtx ∧
    sampleCtx.workspaceDir = some "/ws" ∧
    (enqueueFollowupRun
      (enqueueFollowupRun drainingQueue sampleRun1
        QueueDedupeMode.messageId 5 "T1").queue
      sparseRun QueueDedupeMode.messageId 6 "T2").admitted = true ∧
    (enqueueFollowupRun
      (enqueueFollowupRun drainingQueue sampleRun1
        QueueDedupeMode.messageId 5 "T1").queue
      sparseRun QueueDedupeMode.messageId 6 "T2").inboxWrite = none ∧
    (enqueueFollowupRun drainingQueue sampleRun1
      QueueDedupeMode.messageId 5 "T1").inboxWrite =
      some { file := "/ws/OPENCLAW_INBOX.md", entry := "\n---\n[T1]\np1\n" } := by
  decide

/-! ## Session router claims -/

theorem lookup_filter_ne (store : SessionStore) (chatId : String) :
    (store.filter fun kv => kv.1 != chatId).lookup chatId = none := by
  induction store with
  | nil => rfl
  | cons kv rest ih =>
    obtain ⟨k, v⟩ := kv
    rw [List.filter_cons]
    by_cases h : k = chatId
    · rw [if_neg (by simp [h])]
      exact ih
    · rw [if_pos (by simp [h])]
      have hk : (chatId == k) = false := by simp [Ne.symm h]
      simp only [List.lookup, hk]
      exact ih

theorem tryProxyMessage_noEntry (env : ProxyEnv) (store : SessionStore)
    (chatId text : String) (h : getSession store chatId = none) :
    tryProxyMessage env store chatId text =
      ({ handled := false, response := none }, store) := by
  unfold tryProxyMessage
  rw [h]

/-- Claim C8: for a chat with a stored `SessionEntry` (either mode), a
message whose trimmed lowercased text is a recognized back-command is
handled, the entry is removed from the store, and a subsequent
`tryProxyMessage` for the same chat id is not handled. -/
theorem tryProxyMessage_backCommand_clears
    (env : ProxyEnv) (store : SessionStore) (chatId : String)
    (entry : SessionEntry) (text next : String)
    (hentry : getSession store chatId = some entry)
    (hback : isBackCommand text = true) :
    (tryProxyMessage env store chatId text).1.handled = true ∧
    getSession (tryProxyMessage env store chatId text).2 chatId = none ∧
    (tryProxyMessage env
      (tryProxyMessage env store chatId text).2 chatId next).1.handled = false := by
  have hclear : (tryProxyMessage env store chatId text).2 =
      store.filter fun kv => kv.1 != chatId := by
    unfold tryProxyMessage
    rw [hentry]
    simp only [hback, if_true, clearSession]
    rw [show store.lookup chatId = some entry from hentry]
  refine ⟨?_, ?_, ?_⟩
  · unfold tryProxyMessage
    rw [hentry]
    simp [hback]
  · rw [hclear]
    exact lookup_filter_ne store chatId
  · have hnone : getSession (tryProxyMessage env store chatId text).2 chatId = none := by
      rw [hclear]
      exact lookup_filter_ne store chatId
    rw [tryProxyMessage_noEntry env _ chatId next hnone]

/-- Witness for C8: the attached tmux entry is cleared by the text
`" Назад "` and a following message is not handled. -/
theorem tryProxyMessage_backCommand_clears_witness :
    (tryProxyMessage idleEnv [("c1", tmuxEntry)] "c1" " Назад ").1.handled = true ∧
    getSession (tryProxyMessage idleEnv [("c1", tmuxEntry)] "c1" " Назад ").2 "c1" = none ∧
    (tryProxyMessage idleEnv
      (tryProxyMessage idleEnv [("c1", tmuxEntry)] "c1" " Назад ").2
      "c1" "hello").1.handled = false :=
  tryProxyMessage_backCommand_clears idleEnv [("c1", tmuxEntry)] "c1" tmuxEntry
    " Назад " "hello" (by decide) (by decide)

/-- Claim C10: an entry whose mode-specific fields are missing (tmux mode
without `tmuxSession`, or resume mode lacking `resumeId` or `cwd`) causes
every non-back-command message to fall through unhandled, with the store —
and hence the entry — left untouched. -/
theorem tryProxyMessage_sparseEntry_fallsThrough
    (env : ProxyEnv) (store : SessionStore) (chatId : String)
    (entry : SessionEntry) (text : String)
    (hentry : getSession store chatId = some entry)
    (hnotback : isBackCommand text = false)
    (hsparse :
      (entry.mode = SessionMode.tmux ∧ jsTruthy entry.tmuxSession = false) ∨
      (entry.mode = SessionMode.resume ∧
        (jsTruthy entry.resumeId = false ∨ jsTruthy entry.cwd = false))) :
    (tryProxyMessage env store chatId text).1.handled = false ∧
    (tryProxyMessage env store chatId text).2 = store := by
  unfold tryProxyMessage
  rw [hentry]
  rcases hsparse with ⟨hmode, hfield⟩ | ⟨hmode, hfield⟩
  · simp [hnotback, hmode, hfield,
      show (SessionMode.tmux == SessionMode.resume) = false from rfl]
  · rcases hfield with hfield | hfield <;>
      simp [hnotback, hmode, hfield,
        show (SessionMode.resume == SessionMode.tmux) = false from rfl]

/-- Witness for C10: a tmux entry without `tmuxSession` and a resume entry
without `resumeId` both fall through on a normal message, stores intact. -/
theorem tryProxyMessage_sparseEntry_fallsThrough_witness :
    ((tryProxyMessage idleEnv [("c1", sparseTmuxEntry)] "c1" "hello").1.handled = false ∧
      (tryProxyMessage idleEnv [("c1", sparseTmuxEntry)] "c1" "hello").2 =
        [("c1", sparseTmuxEntry)]) ∧
    ((tryProxyMessage idleEnv [("c2", sparseResumeEntry)] "c2" "hi").1.handled = false ∧
      (tryProxyMessage idleEnv [("c2", sparseResumeEntry)] "c2" "hi").2 =
        [("c2", sparseResumeEntry)]) :=
  ⟨tryProxyMessage_sparseEntry_fallsThrough idleEnv [("c1", sparseTmuxEntry)] "c1"
      sparseTmuxEntry "hello" (by decide) (by decide) (Or.inl (by decide)),
    tryProxyMessage_sparseEntry_fallsThrough idleEnv [("c2", sparseResumeEntry)] "c2"
      sparseResumeEntry "hi" (by decide) (by decide) (Or.inr (by decide))⟩

/-! ## Tmux extraction claim -/

/-- Claim C9 (code bug in the source): `extractNewContent` does NOT filter
out every decorative separator line. The interior-rescue clause of the
filter (`newLines.indexOf(l) > 0 && newLines.indexOf(l) < newLines.length - 3`,
commented in the source as keeping blank lines inside a text block) re-admits
ANY line whose first occurrence lies in that index range, separator lines
included. Concretely, diffing `"a"` against seven lines whose third is the
separator returns text that still contains the separator as a line. -/
theorem extractNewContent_keeps_separator :
    extractNewContent "a" ("a\nx\n" ++ SEPARATOR_LINE ++ "\ny\nz\nw\nq") =
      "x\n" ++ SEPARATOR_LINE ++ "\ny\nz\nw\nq" ∧
    SEPARATOR_LINE ∈
      jsSplitNl (extractNewContent "a" ("a\nx\n" ++ SEPARATOR_LINE ++ "\ny\nz\nw\nq")) := by
  decide

end OpenClaw
